import Mathlib

/-!
# Shallow embedding of the temperature-readout core
  (nuertey/Cplusplus20-Embedded_ASIOProject)

This file embeds, in Lean, the connection/retry state machine and the
aggregation-and-display engine of `src/SessionManager.cpp`, and proves or
refutes the frozen claims about it.

Modelling conventions:
* Timestamps (`SystemClock_t::time_point`) and durations are integers in
  clock ticks; one second is `SECOND_TICKS` ticks (Linux `system_clock`
  counts nanoseconds).  `std::chrono` duration arithmetic is signed, hence `ℤ`.
* A sensor slot keeps exactly the mutable fields the display logic reads:
  `m_CurrentTemperatureReading : std::string` and
  `m_CurrentReadingTime : time_point` (host/port/socket/buffer are not read
  by the aggregation claims and are modelled separately for the connect
  state machine).
* `double` arithmetic is modelled over `ℚ`; the one place where IEEE
  behaviour is observable — `0.0 / 0` when no slot contributes — is modelled
  explicitly by the `Readout.nan` constructor.
* Fallible C++ (a thrown `std::invalid_argument` out of `std::stod`) is an
  `Except` error; an exception aborts the handler without updating
  `m_LastReadoutTime` and without printing.
* The ASIO execution substrate runs with `DISPATCHER_THREAD_POOL_SIZE = 1`
  (`CommonDefinitions.h`): all completion handlers and posted display calls
  execute serially on one worker thread, so each handler is one atomic step
  of the event semantics `stepEvent` below.
-/

/-- `CommonDefinitions.h`: `NUMBER_OF_SENSOR_NODES = 4`. -/
def NUMBER_OF_SENSOR_NODES : ℕ := 4

/-- Ticks of the modelled clock per second (Linux `system_clock` rep). -/
def SECOND_TICKS : ℤ := 1000000000

/-- `CommonDefinitions.h`: `MINIMUM_DISPLAY_INTERVAL_SECONDS = 1`. -/
def MINIMUM_DISPLAY_INTERVAL_SECONDS : ℤ := 1

/-- `CommonDefinitions.h`: `STALE_READING_DURATION_MINUTES = 10`. -/
def STALE_READING_DURATION_MINUTES : ℤ := 10

/-- `Seconds_t(MINIMUM_DISPLAY_INTERVAL_SECONDS)` in clock ticks. -/
def minDisplayIntervalTicks : ℤ := MINIMUM_DISPLAY_INTERVAL_SECONDS * SECOND_TICKS

/-- `std::chrono::minutes(STALE_READING_DURATION_MINUTES)` in clock ticks. -/
def staleWindowTicks : ℤ := STALE_READING_DURATION_MINUTES * 60 * SECOND_TICKS

/-- The mutable per-sensor fields of `SensorNode_t` that the aggregation
and receive logic read and write (`SessionManager.cpp`, lines 182-188). -/
structure SensorNode where
  currentTemperatureReading : String
  currentReadingTime : ℤ
  deriving Repr, DecidableEq

/-- The `SessionManager` state touched by the display engine: the sensor
table `m_TheCustomerSensors` and `m_LastReadoutTime`. -/
structure ManagerState where
  sensors : List SensorNode
  lastReadoutTime : ℤ
  deriving Repr, DecidableEq

/-- Characters accepted as leading whitespace by `std::stod`
(`isspace` in the "C" locale). -/
def isSpaceChar (c : Char) : Bool :=
  c = ' ' || c = '\t' || c = '\n' || c = '\x0b' || c = '\x0c' || c = '\r'

/-- Numeric value of a list of decimal digit characters. -/
def digitsVal (cs : List Char) : ℕ :=
  cs.foldl (fun a c => a * 10 + (c.toNat - 48)) 0

/-- Unsigned part of the `std::stod` conversion: an integer part and/or a
fractional part, at least one digit in total; trailing non-numeric
characters are ignored, exactly as `std::stod` ignores them. -/
def stodUnsigned (cs : List Char) : Option ℚ :=
  let intPart := cs.takeWhile Char.isDigit
  let rest := cs.dropWhile Char.isDigit
  let fracPart :=
    match rest with
    | '.' :: r => r.takeWhile Char.isDigit
    | _ => []
  if intPart.isEmpty && fracPart.isEmpty then none
  else some ((digitsVal intPart : ℚ) + (digitsVal fracPart : ℚ) / (10 : ℚ) ^ fracPart.length)

/-- Model of `std::stod` on the wire format of this program (decimal
fixed-point text, optional sign, optional leading whitespace, trailing
junk ignored).  `none` models the thrown `std::invalid_argument` when no
conversion can be performed.  (Hex/exponent/inf forms accepted by the real
`std::stod` never arise from the sensor wire format and are not modelled.) -/
def stod (s : String) : Option ℚ :=
  match s.data.dropWhile isSpaceChar with
  | '-' :: rest => (stodUnsigned rest).map (fun q => -q)
  | '+' :: rest => stodUnsigned rest
  | cs => stodUnsigned cs

/-- What one display pass prints after the tab prefix:
either the average value, or the IEEE artifact `nan` that
`averageTemperature / count` produces when `count == 0`
(0.0/0 in `double` arithmetic), or the `--.- °C` sentinel
(printed by the constructor and the signal handler only). -/
inductive Readout where
  | sentinel : Readout
  | nanValue : Readout
  | value : ℚ → Readout
  deriving Repr, DecidableEq

/-- One decimal digit fixed formatting,
modelling `std::fixed << std::setprecision(1)`. -/
def formatFixed1 (q : ℚ) : String :=
  let n : ℤ := round (q * 10)
  let a : ℕ := n.natAbs
  (if n < 0 then "-" else "") ++ toString (a / 10) ++ "." ++ toString (a % 10)

/-- The console line a readout produces (tab prefix as in the source). -/
def renderString : Readout → String
  | Readout.sentinel => "\t\t--.- °C"
  | Readout.nanValue => "\t\tnan °C"
  | Readout.value q => "\t\t" ++ formatFixed1 q ++ " °C"

/-- The staleness-and-set test of the aggregation loop
(`SessionManager.cpp` lines 477-480): a slot is included iff
`timeNow - m_CurrentReadingTime < minutes(10)` and the stored reading
string is non-empty. -/
def includeSensor (timeNow : ℤ) (s : SensorNode) : Bool :=
  decide (timeNow - s.currentReadingTime < staleWindowTicks)
    && !(s.currentTemperatureReading.isEmpty)

/-- One iteration of the aggregation loop body: if the slot is fresh and
set, `std::stod` its reading and add it to the running sum/count; a failed
conversion is the thrown `std::invalid_argument` (carrying the offending
string), which aborts the whole display pass. -/
def accumSensor (timeNow : ℤ) : ℚ × ℕ → SensorNode → Except String (ℚ × ℕ)
  | (sum, count), s =>
    if timeNow - s.currentReadingTime < staleWindowTicks then
      if !(s.currentTemperatureReading.isEmpty) then
        match stod s.currentTemperatureReading with
        | some v => Except.ok (sum + v, count + 1)
        | none => Except.error s.currentTemperatureReading
      else
        Except.ok (sum, count)
    else
      Except.ok (sum, count)

/-- The `for (const auto& sensor : m_TheCustomerSensors)` loop of
`DisplayTemperatureData`, folded over the slot table from
`averageTemperature = 0.0`, `count = 0`. -/
def aggregateSensors (timeNow : ℤ) (sensors : List SensorNode) :
    Except String (ℚ × ℕ) :=
  sensors.foldlM (accumSensor timeNow) ((0 : ℚ), (0 : ℕ))

/-- The parsed value a slot contributes when it is included. -/
def contributedValue (s : SensorNode) : ℚ :=
  (stod s.currentTemperatureReading).getD 0

/-- Result of one `DisplayTemperatureData` call: the state after the call
and the readout printed, if any. -/
structure DisplayResult where
  newState : ManagerState
  output : Option Readout
  deriving Repr, DecidableEq

/-- `SessionManager::DisplayTemperatureData` (`SessionManager.cpp` lines
445-500).  `timeNow` is the first `SystemClock_t::now()` call (line 458);
`now2` is the second one (line 498) that is stored into
`m_LastReadoutTime` after printing.  If the debounce check fails nothing
happens; otherwise the slot table is aggregated and
`averageTemperature / count` is printed — for `count == 0` that division
is IEEE `0.0 / 0 = NaN`, modelled by `Readout.nanValue`.  A conversion
failure inside the loop is the propagated `std::stod` exception. -/
def DisplayTemperatureData (st : ManagerState) (timeNow now2 : ℤ) :
    Except String DisplayResult :=
  if minDisplayIntervalTicks ≤ timeNow - st.lastReadoutTime then
    match aggregateSensors timeNow st.sensors with
    | Except.error e => Except.error e
    | Except.ok (sum, count) =>
      let readout := if count = 0 then Readout.nanValue else Readout.value (sum / count)
      Except.ok ⟨{ st with lastReadoutTime := now2 }, some readout⟩
  else
    Except.ok ⟨st, none⟩

/-- Result of an `async_receive` completion (`ReceiveTemperatureData`
lambda): `Except.ok payload` is a successful read whose buffer contents up
to the received length are `payload`; `Except.error code` is a failed read. -/
def ReadResult : Type := Except ℤ String

/-- Kinds of log lines the receive completion can emit. -/
inductive LogEvent where
  | readError : ℤ → LogEvent
  | parseError : String → LogEvent
  deriving Repr, DecidableEq

/-- The next asynchronous operation a handler arms for the slot. -/
inductive SlotAction where
  | rearmReceive : SlotAction
  | startConnect : SlotAction
  deriving Repr, DecidableEq

/-- Effects of one `ReceiveTemperatureData` completion. -/
structure ReceiveEffects where
  newSensor : SensorNode
  displayPosted : Bool
  logs : List LogEvent
  action : SlotAction
  deriving Repr, DecidableEq

/-- The completion handler of `SessionManager::ReceiveTemperatureData`
(`SessionManager.cpp` lines 388-442).  On success the payload string and
the receipt time are stored into the slot and a `DisplayTemperatureData`
call is posted; on error the failure is logged and the slot is untouched.
On BOTH paths the handler re-arms `async_receive` on the same socket
(line 441) — it never reconnects and never backs off. -/
def ReceiveTemperatureData (s : SensorNode) (now : ℤ) :
    ReadResult → ReceiveEffects
  | Except.ok payload =>
    { newSensor := { currentTemperatureReading := payload, currentReadingTime := now }
      displayPosted := true
      logs := []
      action := SlotAction.rearmReceive }
  | Except.error code =>
    { newSensor := s
      displayPosted := false
      logs := [LogEvent.readError code]
      action := SlotAction.rearmReceive }

/-- A slot as constructed by the `SessionManager` constructor
(`SessionManager.cpp` lines 216-221): empty reading, reading time forced
stale (`now − minutes(STALE_READING_DURATION_MINUTES + 1)`). -/
def initialSensor (startTime : ℤ) : SensorNode :=
  { currentTemperatureReading := ""
    currentReadingTime := startTime - (STALE_READING_DURATION_MINUTES + 1) * 60 * SECOND_TICKS }

/-- The manager state right after construction: four freshly initialised
slots, the sentinel printed, and `m_LastReadoutTime` set to `startTime`. -/
def initialState (startTime : ℤ) : ManagerState :=
  { sensors := List.replicate NUMBER_OF_SENSOR_NODES (initialSensor startTime)
    lastReadoutTime := startTime }

/-! ## Event semantics

With `DISPATCHER_THREAD_POOL_SIZE = 1` every completion handler — a
receive completion for some slot, or a posted `DisplayTemperatureData`
call — runs to completion on the single worker thread before the next one
starts.  A system execution is therefore a list of atomic handler events. -/

/-- One handler execution on the worker thread.  `recvOk i payload t` is a
successful receive completion on slot `i` observed at time `t`;
`recvErr i t` a failed one; `display timeNow now2` a posted
`DisplayTemperatureData` call whose two `SystemClock_t::now()` calls
return `timeNow` and `now2`. -/
inductive Event where
  | recvOk : ℕ → String → ℤ → Event
  | recvErr : ℕ → ℤ → Event
  | display : ℤ → ℤ → Event
  deriving Repr, DecidableEq

/-- State transition of one handler event.  A receive success stores the
payload and its receipt time into the slot (lines 398-401); a receive error
leaves the state alone; a display call updates `m_LastReadoutTime` iff it
renders, and a display pass that throws out of `std::stod` aborts with the
state unchanged. -/
def stepEvent (st : ManagerState) : Event → ManagerState
  | Event.recvOk i payload t =>
    { st with sensors := st.sensors.set i (SensorNode.mk payload t) }
  | Event.recvErr _ _ => st
  | Event.display timeNow now2 =>
    match DisplayTemperatureData st timeNow now2 with
    | Except.ok r => r.newState
    | Except.error _ => st

/-- Run a list of handler events from a starting state. -/
def runEvents (st : ManagerState) (es : List Event) : ManagerState :=
  es.foldl stepEvent st

/-- The time at which an event renders a readout, if it does. -/
def renderTimeOf (st : ManagerState) : Event → Option ℤ
  | Event.display timeNow now2 =>
    match DisplayTemperatureData st timeNow now2 with
    | Except.ok r => if r.output.isSome then some timeNow else none
    | Except.error _ => none
  | _ => none

/-- The sequence of times at which renders actually happen along a run. -/
def renderTimes (st : ManagerState) : List Event → List ℤ
  | [] => []
  | e :: es => (renderTimeOf st e).toList ++ renderTimes (stepEvent st e) es

/-- The readouts actually rendered along a run. -/
def renderOutputs (st : ManagerState) : List Event → List Readout
  | [] => []
  | e :: es =>
    (match e with
     | Event.display timeNow now2 =>
       match DisplayTemperatureData st timeNow now2 with
       | Except.ok r => r.output.toList
       | Except.error _ => []
     | _ => []) ++ renderOutputs (stepEvent st e) es

/-- A display event has its second clock read no earlier than its first
(the two `now()` calls of one `DisplayTemperatureData` execution happen in
program order on one thread); other events are unconstrained. -/
def wellClocked : Event → Bool
  | Event.display timeNow now2 => decide (timeNow ≤ now2)
  | _ => true

/-- Every display event in the list is well clocked. -/
def DisplaysWellClocked (es : List Event) : Prop :=
  ∀ e ∈ es, wellClocked e = true

instance (es : List Event) : Decidable (DisplaysWellClocked es) :=
  List.decidableBAll (fun e => wellClocked e = true) es

/-! ## Connect state machine

`StartConnect` resolves the slot's host/port into an ordered candidate
list; `AsyncConnect`/`HandleConnect` walk it front-to-back
(`SessionManager.cpp` lines 273-374). -/

/-- Outcome of `async_connect` on one candidate endpoint, as observed by
`HandleConnect`: an error code; no error but the socket found closed
("Connection somehow timed out", line 323); or success with the socket
open. -/
inductive ConnectOutcome where
  | failure : ConnectOutcome
  | successButClosed : ConnectOutcome
  | success : ConnectOutcome
  deriving Repr, DecidableEq

/-- One step of the connect walk, as logged/acted by the source:
`tried c closedSocket` — the attempt on candidate `c` failed, and
`closedSocket` records whether `close()` was called on the socket
(`HandleConnect` error branch, line 369; the no-error-but-closed branch
skips the close because the socket is already closed);
`connected c` — connection established on `c`, the slot enters the receive
loop; `gaveUp` — the candidate list is exhausted, `AsyncConnect` logs
"Giving up" and arms nothing further: the slot is abandoned. -/
inductive AttemptStep (α : Type) where
  | tried : α → Bool → AttemptStep α
  | connected : α → AttemptStep α
  | gaveUp : AttemptStep α
  deriving Repr, DecidableEq

/-- The `AsyncConnect`/`HandleConnect` recursion over the remaining
candidate list, with `f` giving each candidate's connect outcome.
Mirrors the source: at the end of the list, log and stop (abandon); on a
candidate, `async_connect` and then branch exactly as `HandleConnect`
does — error: close the socket and advance; no-error-but-closed: advance;
success: start receiving. -/
def connectRun {α : Type} (f : α → ConnectOutcome) :
    List α → List (AttemptStep α)
  | [] => [AttemptStep.gaveUp]
  | c :: rest =>
    match f c with
    | ConnectOutcome.success => [AttemptStep.connected c]
    | ConnectOutcome.failure => AttemptStep.tried c true :: connectRun f rest
    | ConnectOutcome.successButClosed => AttemptStep.tried c false :: connectRun f rest

/-! ## Basic facts about the display engine -/

lemma minDisplayIntervalTicks_pos : 0 < minDisplayIntervalTicks := by
  norm_num [minDisplayIntervalTicks, MINIMUM_DISPLAY_INTERVAL_SECONDS, SECOND_TICKS]

/-- A display call inside the debounce window does nothing: same state,
no output (the guarded block is skipped entirely). -/
lemma display_debounced (st : ManagerState) (timeNow now2 : ℤ)
    (h : timeNow - st.lastReadoutTime < minDisplayIntervalTicks) :
    DisplayTemperatureData st timeNow now2 = Except.ok ⟨st, none⟩ := by
  unfold DisplayTemperatureData
  rw [if_neg (by omega)]

/-- Any successful display call either was debounced (state unchanged, no
output) or rendered (lastReadoutTime set to `now2`, some readout printed,
debounce check passed). -/
lemma display_ok_cases (st : ManagerState) (timeNow now2 : ℤ)
    (r : DisplayResult)
    (h : DisplayTemperatureData st timeNow now2 = Except.ok r) :
    (r = ⟨st, none⟩ ∧ timeNow - st.lastReadoutTime < minDisplayIntervalTicks)
    ∨ (∃ o, r = ⟨{ st with lastReadoutTime := now2 }, some o⟩
        ∧ minDisplayIntervalTicks ≤ timeNow - st.lastReadoutTime) := by
  unfold DisplayTemperatureData at h
  by_cases hd : minDisplayIntervalTicks ≤ timeNow - st.lastReadoutTime
  · rw [if_pos hd] at h
    cases hagg : aggregateSensors timeNow st.sensors with
    | error e => rw [hagg] at h; exact absurd h (by simp)
    | ok p =>
      rw [hagg] at h
      right
      obtain ⟨sum, count⟩ := p
      simp only [Except.ok.injEq] at h
      exact ⟨_, h.symm, hd⟩
  · rw [if_neg hd] at h
    left
    simp only [Except.ok.injEq] at h
    exact ⟨h.symm, by omega⟩

/-- A display call never touches the sensor table. -/
lemma display_sensors_eq (st : ManagerState) (timeNow now2 : ℤ)
    (r : DisplayResult)
    (h : DisplayTemperatureData st timeNow now2 = Except.ok r) :
    r.newState.sensors = st.sensors := by
  rcases display_ok_cases st timeNow now2 r h with ⟨rfl, _⟩ | ⟨o, rfl, _⟩ <;> rfl

/-- Receive events do not touch `m_LastReadoutTime`, and display events do
not touch the sensor table. -/
lemma stepEvent_lastReadout_recv (st : ManagerState) (e : Event)
    (h : renderTimeOf st e = none) :
    (stepEvent st e).lastReadoutTime = st.lastReadoutTime := by
  cases e with
  | recvOk i p t => rfl
  | recvErr i t => rfl
  | display timeNow now2 =>
    simp only [stepEvent, renderTimeOf] at *
    cases hD : DisplayTemperatureData st timeNow now2 with
    | error e => rfl
    | ok r =>
      rw [hD] at h
      rcases display_ok_cases st timeNow now2 r hD with ⟨rfl, _⟩ | ⟨o, rfl, _⟩
      · rfl
      · simp at h

/-! ## Claims C10, C1, C2, C6 -/

/-- **C10**: whenever `DisplayTemperatureData` runs while `now` minus the
last readout time is less than the minimum display interval, it leaves all
state unchanged — every sensor slot keeps its fields, `m_LastReadoutTime`
keeps its old value — and produces no output and schedules nothing: the
call is exactly a no-op returning the unchanged state. -/
theorem C10_debounced_display_is_noop (st : ManagerState) (timeNow now2 : ℤ)
    (h : timeNow - st.lastReadoutTime < minDisplayIntervalTicks) :
    DisplayTemperatureData st timeNow now2 = Except.ok ⟨st, none⟩ :=
  display_debounced st timeNow now2 h

/-- Witness for C10 at a concrete input: a trigger 0.4 s after the last
readout is suppressed and the state (initial state at start time 0) is
returned untouched. -/
theorem C10_debounced_display_is_noop_witness :
    ((400000000 : ℤ) - (initialState 0).lastReadoutTime < minDisplayIntervalTicks)
    ∧ DisplayTemperatureData (initialState 0) 400000000 400000000
        = Except.ok ⟨initialState 0, none⟩ :=
  ⟨by decide, C10_debounced_display_is_noop (initialState 0) 400000000 400000000 (by decide)⟩

/-- **C1** (code bug): with every slot stale or unset and the debounce
check passed, `DisplayTemperatureData` does NOT render the `--.- °C`
sentinel: it executes `averageTemperature / count` with `count == 0`,
which in IEEE `double` arithmetic is `0.0 / 0 = NaN`, and prints that NaN
artifact.  Evaluated here at the failing input: the freshly constructed
state (all four slots empty and pre-aged stale) with a display trigger
2 s after start. -/
theorem C1_zero_data_renders_nan_not_sentinel :
    ((DisplayTemperatureData (initialState 1000000000000)
        (1000000000000 + 2 * SECOND_TICKS)
        (1000000000000 + 2 * SECOND_TICKS)).map DisplayResult.output
      = Except.ok (some Readout.nanValue))
    ∧ renderString Readout.nanValue ≠ renderString Readout.sentinel := by
  constructor
  · rfl
  · decide

/-- **C2** (code bug): a non-numeric payload is NOT handled as the claim
says.  The receive completion stores the raw payload verbatim — replacing
the previous reading — and logs nothing about parsing; the parse happens
only later, inside `DisplayTemperatureData`'s `std::stod`, which throws
`std::invalid_argument` (our `Except.error`) out of the handler, killing
the dispatcher's worker thread.  Evaluated at the failing input: a slot
holding `"20.0"` receives payload `"abc"` at t = 6 s; the next display
pass at t = 7 s throws. -/
theorem C2_nonnumeric_payload_stored_then_throws :
    (ReceiveTemperatureData ⟨"20.0", 5000000000⟩ 6000000000
        (Except.ok "abc")).newSensor = ⟨"abc", 6000000000⟩
    ∧ (ReceiveTemperatureData ⟨"20.0", 5000000000⟩ 6000000000
        (Except.ok "abc")).logs = []
    ∧ DisplayTemperatureData ⟨[⟨"abc", 6000000000⟩], 0⟩ 7000000000 7000000000
        = Except.error "abc" :=
  ⟨rfl, rfl, rfl⟩

/-- **C6**: a completed asynchronous read that reports an error leaves the
slot's stored reading and reading timestamp unchanged, logs exactly the
read error, posts no display, and re-arms a read on the same connection
(`SlotAction.rearmReceive`, never `SlotAction.startConnect`): transient
read failures are never fatal to the slot. -/
theorem C6_read_error_rearms_without_touching_slot
    (s : SensorNode) (now : ℤ) (code : ℤ) :
    ReceiveTemperatureData s now (Except.error code)
      = { newSensor := s
          displayPosted := false
          logs := [LogEvent.readError code]
          action := SlotAction.rearmReceive } :=
  rfl

/-! ## Aggregation loop analysis (for C3 and C5) -/

lemma except_ok_bind {ε α β : Type} (a : α) (f : α → Except ε β) :
    (Except.ok (ε := ε) a >>= f) = f a := rfl

/-- The running sum/count of the aggregation loop, started from any
accumulator, counts exactly the included slots and sums exactly their
parsed readings. -/
lemma foldlM_accumSensor (timeNow : ℤ) :
    ∀ (sensors : List SensorNode) (sum0 : ℚ) (count0 : ℕ) (sum : ℚ) (count : ℕ),
      sensors.foldlM (accumSensor timeNow) (sum0, count0) = Except.ok (sum, count) →
      count = count0 + (sensors.filter (includeSensor timeNow)).length
      ∧ sum = sum0 + ((sensors.filter (includeSensor timeNow)).map contributedValue).sum
  | [], sum0, count0, sum, count => by
    intro h
    simp only [List.foldlM_nil, pure, Except.pure, Except.ok.injEq, Prod.mk.injEq] at h
    simp [h.1, h.2]
  | s :: rest, sum0, count0, sum, count => by
    intro h
    rw [List.foldlM_cons] at h
    by_cases hfresh : timeNow - s.currentReadingTime < staleWindowTicks
    · by_cases hset : s.currentTemperatureReading.isEmpty = true
      · -- fresh but unset: skipped
        have hinc : includeSensor timeNow s = false := by
          simp [includeSensor, hset]
        have hacc : accumSensor timeNow (sum0, count0) s = Except.ok (sum0, count0) := by
          simp only [accumSensor]
          rw [if_pos hfresh, if_neg (by simp [hset])]
        rw [hacc] at h
        have h2 : rest.foldlM (accumSensor timeNow) (sum0, count0)
            = Except.ok (sum, count) := h
        have ih := foldlM_accumSensor timeNow rest sum0 count0 sum count h2
        simp [List.filter_cons, hinc, ih.1, ih.2]
      · -- fresh and set: parsed and added (or the stod exception)
        have hinc : includeSensor timeNow s = true := by
          simp [includeSensor, hfresh, hset]
        cases hstod : stod s.currentTemperatureReading with
        | none =>
          have hacc : accumSensor timeNow (sum0, count0) s
              = Except.error s.currentTemperatureReading := by
            simp only [accumSensor]
            rw [if_pos hfresh, if_pos (by simp [Bool.not_eq_true] at hset ⊢; simp [hset]),
              hstod]
          rw [hacc] at h
          exact absurd h (by simp [Bind.bind, Except.bind])
        | some v =>
          have hacc : accumSensor timeNow (sum0, count0) s
              = Except.ok (sum0 + v, count0 + 1) := by
            simp only [accumSensor]
            rw [if_pos hfresh, if_pos (by simp [Bool.not_eq_true] at hset ⊢; simp [hset]),
              hstod]
          rw [hacc] at h
          have h2 : rest.foldlM (accumSensor timeNow) (sum0 + v, count0 + 1)
              = Except.ok (sum, count) := h
          have ih := foldlM_accumSensor timeNow rest (sum0 + v) (count0 + 1) sum count h2
          constructor
          · rw [ih.1]; simp [List.filter_cons, hinc]; omega
          · rw [ih.2]
            simp [List.filter_cons, hinc, contributedValue, hstod]
            ring
    · -- stale: skipped regardless of the stored value
      have hinc : includeSensor timeNow s = false := by
        simp [includeSensor, hfresh]
      have hacc : accumSensor timeNow (sum0, count0) s = Except.ok (sum0, count0) := by
        simp only [accumSensor]
        rw [if_neg hfresh]
      rw [hacc] at h
      have h2 : rest.foldlM (accumSensor timeNow) (sum0, count0)
          = Except.ok (sum, count) := h
      have ih := foldlM_accumSensor timeNow rest sum0 count0 sum count h2
      simp [List.filter_cons, hinc, ih.1, ih.2]

/-- **C3**: in every aggregation pass at time `timeNow`, a slot
contributes to the displayed sum and count iff `timeNow` minus its last
reading timestamp is strictly below the 10-minute staleness window AND its
reading is set (non-empty); the final count is exactly the number of such
slots and the final sum exactly the sum of their parsed readings — in
particular a slot at least 10 minutes old never contributes, regardless of
its stored value. -/
theorem C3_staleness_exclusion (timeNow : ℤ) (sensors : List SensorNode)
    (sum : ℚ) (count : ℕ)
    (h : aggregateSensors timeNow sensors = Except.ok (sum, count)) :
    count = (sensors.filter (includeSensor timeNow)).length
    ∧ sum = ((sensors.filter (includeSensor timeNow)).map contributedValue).sum
    ∧ (∀ s ∈ sensors, includeSensor timeNow s = true ↔
        (timeNow - s.currentReadingTime < staleWindowTicks
          ∧ s.currentTemperatureReading ≠ ""))
    ∧ (∀ s ∈ sensors, staleWindowTicks ≤ timeNow - s.currentReadingTime →
        includeSensor timeNow s = false) := by
  have hfold := foldlM_accumSensor timeNow sensors 0 0 sum count h
  refine ⟨by simpa using hfold.1, by simpa using hfold.2, ?_, ?_⟩
  · intro s _
    simp only [includeSensor, Bool.and_eq_true, decide_eq_true_eq, ne_eq]
    apply and_congr_right
    intro _
    rw [Bool.not_eq_true', Bool.eq_false_iff]
    exact not_congr (String.isEmpty_iff _)
  · intro s _ hstale
    simp [includeSensor]
    intro hfresh
    omega

/-- Witness for C3 at a concrete input (`timeNow` = 700 s): a 700-second-old
slot holding `"99.0"` is excluded despite its stored value, an empty fresh
slot is excluded, and the two fresh set slots `"20.0"`, `"40.0"` alone make
the sum 60 and the count 2. -/
theorem C3_staleness_exclusion_witness :
    aggregateSensors 700000000000
        [⟨"99.0", 0⟩, ⟨"", 699000000000⟩, ⟨"20.0", 699000000000⟩, ⟨"40.0", 699500000000⟩]
      = Except.ok (60, 2)
    ∧ (2 = ([⟨"99.0", 0⟩, ⟨"", 699000000000⟩, ⟨"20.0", 699000000000⟩,
          (⟨"40.0", 699500000000⟩ : SensorNode)].filter (includeSensor 700000000000)).length
      ∧ (60 : ℚ) = (([⟨"99.0", 0⟩, ⟨"", 699000000000⟩, ⟨"20.0", 699000000000⟩,
          (⟨"40.0", 699500000000⟩ : SensorNode)].filter
            (includeSensor 700000000000)).map contributedValue).sum
      ∧ (∀ s ∈ [⟨"99.0", 0⟩, ⟨"", 699000000000⟩, ⟨"20.0", 699000000000⟩,
          (⟨"40.0", 699500000000⟩ : SensorNode)], includeSensor 700000000000 s = true ↔
            (700000000000 - s.currentReadingTime < staleWindowTicks
              ∧ s.currentTemperatureReading ≠ ""))
      ∧ (∀ s ∈ [⟨"99.0", 0⟩, ⟨"", 699000000000⟩, ⟨"20.0", 699000000000⟩,
          (⟨"40.0", 699500000000⟩ : SensorNode)],
            staleWindowTicks ≤ 700000000000 - s.currentReadingTime →
              includeSensor 700000000000 s = false)) :=
  have hagg : aggregateSensors 700000000000
      [⟨"99.0", 0⟩, ⟨"", 699000000000⟩, ⟨"20.0", 699000000000⟩, ⟨"40.0", 699500000000⟩]
      = Except.ok (60, 2) := by
    simp +decide [aggregateSensors, List.foldlM_cons, List.foldlM_nil, accumSensor,
      stod, stodUnsigned, digitsVal, isSpaceChar, staleWindowTicks,
      STALE_READING_DURATION_MINUTES, SECOND_TICKS, except_ok_bind]
    norm_num
  ⟨hagg, C3_staleness_exclusion 700000000000 _ 60 2 hagg⟩

/-- **C5**: whenever the debounce check passes and the aggregation pass
succeeds with contributing count at least 1, the display renders exactly
`sum / count` — the sum of the contributing slots' parsed readings divided
by their number — formatted to one decimal place with the `°C` suffix,
and anchors `m_LastReadoutTime` at the post-print clock read. -/
theorem C5_renders_average (st : ManagerState) (timeNow now2 : ℤ)
    (sum : ℚ) (count : ℕ)
    (hdeb : minDisplayIntervalTicks ≤ timeNow - st.lastReadoutTime)
    (hagg : aggregateSensors timeNow st.sensors = Except.ok (sum, count))
    (hcount : 1 ≤ count) :
    DisplayTemperatureData st timeNow now2
      = Except.ok ⟨{ st with lastReadoutTime := now2 },
          some (Readout.value (sum / (count : ℚ)))⟩
    ∧ renderString (Readout.value (sum / (count : ℚ)))
      = "\t\t" ++ formatFixed1 (sum / (count : ℚ)) ++ " °C" := by
  constructor
  · unfold DisplayTemperatureData
    rw [if_pos hdeb, hagg]
    have hne : count ≠ 0 := by omega
    simp [hne]
  · rfl

/-- The Scenario-D state: four slots `"10.0"`, `"20.0"`, `"30.0"`,
`"40.0"`, all read within the same second, last readout 1.5 s ago. -/
def scenarioD : ManagerState :=
  { sensors := [⟨"10.0", 5000000000⟩, ⟨"20.0", 5000000000⟩,
                ⟨"30.0", 5100000000⟩, ⟨"40.0", 5200000000⟩]
    lastReadoutTime := 4000000000 }

/-- Witness for C5 at Scenario D: four fresh readings 10.0, 20.0, 30.0,
40.0 aggregate to sum 100, count 4, and the render is `25.0 °C`. -/
theorem C5_renders_average_witness :
    (minDisplayIntervalTicks ≤ (5500000000 : ℤ) - scenarioD.lastReadoutTime)
    ∧ aggregateSensors 5500000000 scenarioD.sensors = Except.ok (100, 4)
    ∧ DisplayTemperatureData scenarioD 5500000000 5500000000
        = Except.ok ⟨{ scenarioD with lastReadoutTime := 5500000000 },
            some (Readout.value ((100 : ℚ) / ((4 : ℕ) : ℚ)))⟩
    ∧ renderString (Readout.value ((100 : ℚ) / ((4 : ℕ) : ℚ))) = "\t\t25.0 °C" :=
  have hdeb : minDisplayIntervalTicks ≤ (5500000000 : ℤ) - scenarioD.lastReadoutTime := by
    decide
  have hagg : aggregateSensors 5500000000 scenarioD.sensors = Except.ok (100, 4) := by
    simp +decide [scenarioD, aggregateSensors, List.foldlM_cons, List.foldlM_nil,
      accumSensor, stod, stodUnsigned, digitsVal, isSpaceChar, staleWindowTicks,
      STALE_READING_DURATION_MINUTES, SECOND_TICKS, except_ok_bind]
    norm_num
  have h := C5_renders_average scenarioD 5500000000 5500000000 100 4 hdeb hagg
    (by norm_num)
  have hfmt : renderString (Readout.value ((100 : ℚ) / ((4 : ℕ) : ℚ)))
      = "\t\t25.0 °C" := by
    have h1 : ((100 : ℚ) / ((4 : ℕ) : ℚ)) = 25 := by norm_num
    rw [renderString, h1, formatFixed1]
    have h2 : round ((25 : ℚ) * 10) = 250 := by norm_num [round_eq]
    simp only [h2]
    decide
  ⟨hdeb, hagg, h.1, hfmt⟩

/-- **C7**: resolved connection candidates are attempted strictly in order
front-to-back.  If every candidate fails, the walk tries each one exactly
once in list order — closing the socket on each error-failure — and ends
with the give-up log entry, after which nothing further is armed (the slot
is abandoned for the process lifetime: `AsyncConnect` with an exhausted
iterator only logs).  If some candidate succeeds, the walk tries exactly
the failing prefix in order and then connects on the first succeeding
candidate, never touching later candidates. -/
theorem C7_candidates_front_to_back {α : Type} (f : α → ConnectOutcome)
    (cs : List α) :
    ((∀ c ∈ cs, f c ≠ ConnectOutcome.success) →
      connectRun f cs
        = cs.map (fun c => AttemptStep.tried c (decide (f c = ConnectOutcome.failure)))
            ++ [AttemptStep.gaveUp])
    ∧ (∀ pre c post, cs = pre ++ c :: post →
        (∀ x ∈ pre, f x ≠ ConnectOutcome.success) →
        f c = ConnectOutcome.success →
        connectRun f cs
          = pre.map (fun x => AttemptStep.tried x (decide (f x = ConnectOutcome.failure)))
              ++ [AttemptStep.connected c]) := by
  constructor
  · induction cs with
    | nil => intro _; rfl
    | cons c rest ih =>
      intro hall
      have hc := hall c (by simp)
      cases hf : f c with
      | success => exact absurd hf hc
      | failure =>
        simp only [connectRun, hf, List.map_cons, List.cons_append, hf, decide_eq_true_eq]
        simp [ih (fun x hx => hall x (by simp [hx])), hf]
      | successButClosed =>
        simp only [connectRun, hf, List.map_cons, List.cons_append]
        simp [ih (fun x hx => hall x (by simp [hx])), hf]
  · intro pre c post hcs hpre hc
    subst hcs
    induction pre with
    | nil => simp [connectRun, hc]
    | cons x xs ih =>
      have hx := hpre x (by simp)
      cases hf : f x with
      | success => exact absurd hf hx
      | failure =>
        simp only [List.cons_append, connectRun, hf, List.map_cons]
        simp [ih (fun y hy => hpre y (by simp [hy])), hf]
      | successButClosed =>
        simp only [List.cons_append, connectRun, hf, List.map_cons]
        simp [ih (fun y hy => hpre y (by simp [hy])), hf]

/-- Witness for C7 at concrete inputs: with candidates `[0, 1, 2, 5]` where
only `2` connects, the walk is `tried 0, tried 1, connected 2` (candidate 5
never attempted); with two candidates that both fail, every candidate is
attempted once in order, each with the socket closed, and the walk ends
giving up. -/
theorem C7_candidates_front_to_back_witness :
    connectRun (fun c : ℕ => if c = 2 then ConnectOutcome.success else ConnectOutcome.failure)
        [0, 1, 2, 5]
      = [AttemptStep.tried 0 true, AttemptStep.tried 1 true, AttemptStep.connected 2]
    ∧ connectRun (fun _ : ℕ => ConnectOutcome.failure) [7, 8]
      = [AttemptStep.tried 7 true, AttemptStep.tried 8 true, AttemptStep.gaveUp] := by
  constructor
  · have h := (C7_candidates_front_to_back
        (fun c : ℕ => if c = 2 then ConnectOutcome.success else ConnectOutcome.failure)
        [0, 1, 2, 5]).2 [0, 1] 2 [5] rfl (by decide) (by decide)
    simpa using h
  · have h := (C7_candidates_front_to_back
        (fun _ : ℕ => ConnectOutcome.failure) [7, 8]).1 (by decide)
    simpa using h

/-! ## Rate limiting along event traces (for C4 and C8) -/

/-- Receive completions never touch `m_LastReadoutTime`. -/
lemma stepEvent_recvOk_lastReadout (st : ManagerState) (i : ℕ) (p : String) (t : ℤ) :
    (stepEvent st (Event.recvOk i p t)).lastReadoutTime = st.lastReadoutTime := rfl

lemma stepEvent_display_error (st : ManagerState) (timeNow now2 : ℤ) (err : String)
    (hD : DisplayTemperatureData st timeNow now2 = Except.error err) :
    stepEvent st (Event.display timeNow now2) = st := by
  simp only [stepEvent, hD]

lemma stepEvent_display_ok (st : ManagerState) (timeNow now2 : ℤ) (r : DisplayResult)
    (hD : DisplayTemperatureData st timeNow now2 = Except.ok r) :
    stepEvent st (Event.display timeNow now2) = r.newState := by
  simp only [stepEvent, hD]

lemma renderTimeOf_display_error (st : ManagerState) (timeNow now2 : ℤ) (err : String)
    (hD : DisplayTemperatureData st timeNow now2 = Except.error err) :
    renderTimeOf st (Event.display timeNow now2) = none := by
  simp only [renderTimeOf, hD]

lemma renderTimeOf_display_ok (st : ManagerState) (timeNow now2 : ℤ) (r : DisplayResult)
    (hD : DisplayTemperatureData st timeNow now2 = Except.ok r) :
    renderTimeOf st (Event.display timeNow now2)
      = if r.output.isSome then some timeNow else none := by
  simp only [renderTimeOf, hD]

/-- Core invariant: along any well-clocked trace, consecutive render times
are at least `minDisplayIntervalTicks` apart, and every render time is at
least that interval after the starting `m_LastReadoutTime`. -/
lemma renderTimes_chain (es : List Event) : ∀ st : ManagerState,
    DisplaysWellClocked es →
    List.Chain' (fun a b => a + minDisplayIntervalTicks ≤ b) (renderTimes st es)
    ∧ ∀ t ∈ renderTimes st es, st.lastReadoutTime + minDisplayIntervalTicks ≤ t := by
  induction es with
  | nil => intro st _; simp [renderTimes]
  | cons e es ih =>
    intro st hwc
    have hwc2 : DisplaysWellClocked es := fun x hx => hwc x (by simp [hx])
    cases e with
    | recvOk i p t =>
      have hnone : renderTimeOf st (Event.recvOk i p t) = none := rfl
      have hlast : (stepEvent st (Event.recvOk i p t)).lastReadoutTime
          = st.lastReadoutTime := rfl
      have h := ih (stepEvent st (Event.recvOk i p t)) hwc2
      simp only [renderTimes, hnone, Option.toList_none, List.nil_append]
      exact ⟨h.1, fun y hy => by have := h.2 y hy; rwa [hlast] at this⟩
    | recvErr i t =>
      have hnone : renderTimeOf st (Event.recvErr i t) = none := rfl
      have h := ih (stepEvent st (Event.recvErr i t)) hwc2
      simp only [renderTimes, hnone, Option.toList_none, List.nil_append]
      exact ⟨h.1, fun y hy => h.2 y hy⟩
    | display timeNow now2 =>
      have htn : timeNow ≤ now2 := by
        have := hwc (Event.display timeNow now2) (by simp)
        simpa [wellClocked] using this
      cases hD : DisplayTemperatureData st timeNow now2 with
      | error err =>
        have hnone : renderTimeOf st (Event.display timeNow now2) = none := by
          simp [renderTimeOf, hD]
        have hstep : stepEvent st (Event.display timeNow now2) = st := by
          simp [stepEvent, hD]
        have h := ih st hwc2
        simp only [renderTimes, hnone, Option.toList_none, List.nil_append, hstep]
        exact h
      | ok r =>
        rcases display_ok_cases st timeNow now2 r hD with ⟨hr, _⟩ | ⟨o, hr, hge⟩
        · -- debounced: no render, state unchanged
          have hnone : renderTimeOf st (Event.display timeNow now2) = none := by
            simp [renderTimeOf, hD, hr]
          have hstep : stepEvent st (Event.display timeNow now2) = st := by
            simp [stepEvent, hD, hr]
          have h := ih st hwc2
          simp only [renderTimes, hnone, Option.toList_none, List.nil_append, hstep]
          exact h
        · -- rendered at timeNow, lastReadoutTime advanced to now2
          have hsome : renderTimeOf st (Event.display timeNow now2) = some timeNow := by
            simp [renderTimeOf, hD, hr]
          have hstep : stepEvent st (Event.display timeNow now2)
              = { st with lastReadoutTime := now2 } := by
            simp [stepEvent, hD, hr]
          have h := ih { st with lastReadoutTime := now2 } hwc2
          have hpos := minDisplayIntervalTicks_pos
          simp only [renderTimes, hsome, Option.toList_some, List.singleton_append, hstep]
          constructor
          · rw [List.chain'_cons']
            refine ⟨?_, h.1⟩
            intro y hy
            have hmem : y ∈ renderTimes { st with lastReadoutTime := now2 } es :=
              List.mem_of_mem_head? hy
            have := h.2 y hmem
            simp only at this
            omega
          · intro y hy
            rcases List.mem_cons.mp hy with rfl | hy2
            · omega
            · have := h.2 y hy2
              simp only at this
              omega

/-- **C4**: along any well-clocked trace of handler events, any two
consecutive rendered display outputs have render times at least the
minimum display interval (1 s) apart; a display trigger arriving while
`now` minus the last readout time is below that interval produces no
output (it contributes no render time). -/
theorem C4_rate_limiting (st : ManagerState) (es : List Event)
    (h : DisplaysWellClocked es) :
    List.Chain' (fun a b => a + minDisplayIntervalTicks ≤ b) (renderTimes st es)
    ∧ ∀ timeNow now2 : ℤ, timeNow - st.lastReadoutTime < minDisplayIntervalTicks →
        renderTimeOf st (Event.display timeNow now2) = none := by
  refine ⟨(renderTimes_chain es st h).1, ?_⟩
  intro timeNow now2 hlt
  simp [renderTimeOf, display_debounced st timeNow now2 hlt]

/-- Witness for C4 at a concrete trace: an empty-table state, two display
triggers at t = 1 s and t = 3 s both render, 2 s apart; a suppressed
trigger 0.4 s after a render produces no render time. -/
theorem C4_rate_limiting_witness :
    DisplaysWellClocked
        [Event.display 1000000000 1000000000, Event.display 1400000000 1400000000,
          Event.display 3000000000 3000000000]
    ∧ List.Chain' (fun a b => a + minDisplayIntervalTicks ≤ b)
        (renderTimes ⟨[], 0⟩
          [Event.display 1000000000 1000000000, Event.display 1400000000 1400000000,
            Event.display 3000000000 3000000000])
    ∧ renderTimes ⟨[], 0⟩
        [Event.display 1000000000 1000000000, Event.display 1400000000 1400000000,
          Event.display 3000000000 3000000000] = [1000000000, 3000000000] :=
  have hwc : DisplaysWellClocked
      [Event.display 1000000000 1000000000, Event.display 1400000000 1400000000,
        Event.display 3000000000 3000000000] := by decide
  ⟨hwc, (C4_rate_limiting ⟨[], 0⟩ _ hwc).1, by rfl⟩

/-! ## Atomicity of the (reading, timestamp) pair (for C9) -/

/-- **C9**: along any trace of serialized handler events, every slot's
(reading, timestamp) pair observed by an aggregation pass is either the
slot's starting pair or exactly the pair `(payload, t)` written together
by one single successful receive completion in the trace — never a value
from one update combined with a timestamp from another.  (The single
ordering domain of `DISPATCHER_THREAD_POOL_SIZE = 1` makes each handler —
which writes `m_CurrentTemperatureReading` and `m_CurrentReadingTime`
back-to-back, lines 398-401 — one atomic step with respect to the posted
display handler that reads them.) -/
theorem C9_pair_provenance (st0 : ManagerState) (es : List Event) (i : ℕ) :
    (runEvents st0 es).sensors[i]? = st0.sensors[i]?
    ∨ ∃ payload t, Event.recvOk i payload t ∈ es ∧
        (runEvents st0 es).sensors[i]? = some ⟨payload, t⟩ := by
  induction es generalizing st0 with
  | nil => left; rfl
  | cons e es ih =>
    have hrun : runEvents st0 (e :: es) = runEvents (stepEvent st0 e) es := rfl
    rcases ih (stepEvent st0 e) with h | ⟨p, t, hmem, heq⟩
    · rw [hrun, h]
      cases e with
      | recvOk j p t =>
        by_cases hij : j = i
        · subst hij
          by_cases hlen : j < st0.sensors.length
          · right
            refine ⟨p, t, by simp, ?_⟩
            simp only [stepEvent]
            exact List.getElem?_set_self hlen
          · left
            simp only [stepEvent]
            rw [List.set_eq_of_length_le (by omega)]
        · left
          simp only [stepEvent]
          exact List.getElem?_set_ne hij
      | recvErr j t => left; rfl
      | display timeNow now2 =>
        left
        simp only [stepEvent]
        cases hD : DisplayTemperatureData st0 timeNow now2 with
        | error err => rfl
        | ok r => rw [display_sensors_eq st0 timeNow now2 r hD]
    · right
      exact ⟨p, t, by simp [hmem], by rw [hrun, heq]⟩

/-! ## Debounce-window behaviour of paired updates (for C8) -/

lemma renderTimes_cons (st : ManagerState) (e : Event) (es : List Event) :
    renderTimes st (e :: es)
      = (renderTimeOf st e).toList ++ renderTimes (stepEvent st e) es := rfl

lemma renderTimes_single_le_one (st : ManagerState) (e : Event) :
    (renderTimes st [e]).length ≤ 1 := by
  rw [renderTimes_cons]
  cases renderTimeOf st e <;> simp [renderTimes]

/-- **C8 counterexample**: the claim "two sensor updates within the same
debounce window produce exactly one display render reflecting both" is
false on the code.  Concrete input: freshly constructed manager (initial
sentinel printed at t = 0), updates on sensors 0 and 1 arrive 0.2 s apart
(t = 0.3 s and t = 0.5 s), each posting a display trigger.  Both triggers
fall inside the 1 s debounce window anchored at t = 0, so ZERO renders
occur — not exactly one — and nothing re-schedules the suppressed state
for later. -/
theorem C8_counterexample_zero_renders :
    ¬ ((renderOutputs (initialState 0)
        [Event.recvOk 0 "20.0" 300000000, Event.display 300000000 300000000,
          Event.recvOk 1 "30.0" 500000000, Event.display 500000000 500000000]).length
      = 1) := by
  have h : renderOutputs (initialState 0)
      [Event.recvOk 0 "20.0" 300000000, Event.display 300000000 300000000,
        Event.recvOk 1 "30.0" 500000000, Event.display 500000000 500000000] = [] := rfl
  rw [h]
  simp

/-- **C8 (amended)**: if two sensor updates arrive less than the minimum
display interval apart, each posting a display trigger, then AT MOST one
display render occurs for those two triggers (possibly zero); when the
first trigger renders, the second is suppressed, so the render cannot
reflect the later update — state arriving during the closed window is
displayed only if some later trigger passes the debounce check. -/
theorem C8_amended_at_most_one_render (st : ManagerState) (i j : ℕ)
    (p q : String) (t1r t1 n1 t2r t2 n2 : ℤ)
    (h1 : t1 ≤ n1) (h2 : t2 - t1 < minDisplayIntervalTicks) :
    (renderTimes st [Event.recvOk i p t1r, Event.display t1 n1,
        Event.recvOk j q t2r, Event.display t2 n2]).length ≤ 1 := by
  rw [renderTimes_cons]
  have hr1 : renderTimeOf st (Event.recvOk i p t1r) = none := rfl
  rw [hr1]
  simp only [Option.toList_none, List.nil_append]
  set st1 := stepEvent st (Event.recvOk i p t1r) with hst1
  cases hD : DisplayTemperatureData st1 t1 n1 with
  | error err =>
    rw [renderTimes_cons, renderTimeOf_display_error st1 t1 n1 err hD,
      stepEvent_display_error st1 t1 n1 err hD]
    simp only [Option.toList_none, List.nil_append]
    rw [renderTimes_cons]
    have hr2 : renderTimeOf st1 (Event.recvOk j q t2r) = none := rfl
    rw [hr2]
    simp only [Option.toList_none, List.nil_append]
    exact renderTimes_single_le_one _ _
  | ok r =>
    rcases display_ok_cases st1 t1 n1 r hD with ⟨hr, _⟩ | ⟨o, hr, hge⟩
    · have hnone : renderTimeOf st1 (Event.display t1 n1) = none := by
        rw [renderTimeOf_display_ok st1 t1 n1 r hD, hr]
        rfl
      have hstep : stepEvent st1 (Event.display t1 n1) = st1 := by
        rw [stepEvent_display_ok st1 t1 n1 r hD, hr]
      rw [renderTimes_cons, hnone, hstep]
      simp only [Option.toList_none, List.nil_append]
      rw [renderTimes_cons]
      have hr2 : renderTimeOf st1 (Event.recvOk j q t2r) = none := rfl
      rw [hr2]
      simp only [Option.toList_none, List.nil_append]
      exact renderTimes_single_le_one _ _
    · -- the first trigger rendered: the second falls inside the new window
      have hsome : renderTimeOf st1 (Event.display t1 n1) = some t1 := by
        rw [renderTimeOf_display_ok st1 t1 n1 r hD, hr]
        rfl
      have hstep : stepEvent st1 (Event.display t1 n1)
          = { st1 with lastReadoutTime := n1 } := by
        rw [stepEvent_display_ok st1 t1 n1 r hD, hr]
      rw [renderTimes_cons, hsome, hstep]
      rw [renderTimes_cons]
      have hr2 : renderTimeOf { st1 with lastReadoutTime := n1 }
          (Event.recvOk j q t2r) = none := rfl
      rw [hr2]
      rw [renderTimes_cons]
      have hlast : (stepEvent { st1 with lastReadoutTime := n1 }
          (Event.recvOk j q t2r)).lastReadoutTime = n1 := rfl
      have hlt : t2 - (stepEvent { st1 with lastReadoutTime := n1 }
          (Event.recvOk j q t2r)).lastReadoutTime < minDisplayIntervalTicks := by
        rw [hlast]
        omega
      have hsupp : renderTimeOf (stepEvent { st1 with lastReadoutTime := n1 }
          (Event.recvOk j q t2r)) (Event.display t2 n2) = none := by
        simp [renderTimeOf, display_debounced _ t2 n2 hlt]
      rw [hsupp]
      simp [renderTimes]


/-- Witness for the amended C8 at concrete inputs: last render at t = 0,
first update's trigger at t = 1 s renders, second update 0.2 s later is
suppressed — exactly one render (at the first trigger), within the bound. -/
theorem C8_amended_at_most_one_render_witness :
    ((1000000000 : ℤ) ≤ 1000000000)
    ∧ ((1200000000 : ℤ) - 1000000000 < minDisplayIntervalTicks)
    ∧ (renderTimes ⟨[], 0⟩ [Event.recvOk 0 "20.0" 950000000,
        Event.display 1000000000 1000000000, Event.recvOk 1 "30.0" 1150000000,
        Event.display 1200000000 1200000000]).length ≤ 1
    ∧ renderTimes ⟨[], 0⟩ [Event.recvOk 0 "20.0" 950000000,
        Event.display 1000000000 1000000000, Event.recvOk 1 "30.0" 1150000000,
        Event.display 1200000000 1200000000] = [1000000000] :=
  ⟨by decide, by decide,
    C8_amended_at_most_one_render ⟨[], 0⟩ 0 1 "20.0" "30.0" 950000000 1000000000
      1000000000 1150000000 1200000000 1200000000 (by decide) (by decide),
    by rfl⟩
